import Mathlib

/-!
Shallow embedding of `crates/next-core/src/next_client_chunks/with_chunks.rs`:
the `WithChunksAsset` virtual module and its `WithChunksChunkItem`, whose
`content` synthesizes the `__turbopack_esm__` loader text from a resolved
chunk group, path rebasing against the serving root, and the wrapped
module's chunk-item id.

External collaborators (the turbo-tasks engine, `AssetIdent::with_modifier`,
`FileSystemPath::get_path_to`, `stringify_js`, serde_json rendering, chunk
group resolution) are not part of the given source fragment; they are
modelled from the spec and abstracted as an explicit environment where the
spec treats them as opaque.
-/

namespace WithChunks

/-- Modelled from the spec: a module identity, derived from the wrapped
module's identity plus an ordered list of modifier strings
(`AssetIdent::with_modifier` is outside the source fragment). -/
structure AssetIdent where
  path : String
  modifiers : List String
deriving DecidableEq, Repr

/-- Modelled from the spec: combining an identity with a modifier appends
the modifier token, yielding a distinct, deterministic identity. -/
def AssetIdent.with_modifier (i : AssetIdent) (m : String) : AssetIdent :=
  { i with modifiers := i.modifiers ++ [m] }

/-- The constant identity-modifier token produced by `modifier()`. -/
def modifier : String := "chunks"

/-- Modelled from the spec: a filesystem path as a list of segments; the
concrete representation is opaque to the fragment. -/
structure FileSystemPath where
  segments : List String
deriving DecidableEq, Repr

/-- Modelled from the spec: the path-rebasing primitive
`FileSystemPath::get_path_to` — `some` relative string when `target`
descends from `root`, `none` otherwise. -/
def FileSystemPath.get_path_to (root target : FileSystemPath) : Option String :=
  if root.segments.isPrefixOf target.segments then
    some (String.intercalate "/" (target.segments.drop root.segments.length))
  else
    none

/-- Opaque chunking-context handle. -/
abbrev ChunkingContext := Nat

/-- Opaque chunk handle, resolvable to an output path by the environment. -/
abbrev Chunk := Nat

/-- Opaque availability-set handle (only ever passed as `None` here). -/
abbrev AvailableAssets := Nat

/-- Propagated collaborator error. -/
abbrev Err := String

/-- Modelled from the spec: a module id, an opaque stable identifier. -/
abbrev ModuleId := String

/-- Raw asset content; `WithChunksAsset::content` never produces one. -/
abbrev AssetContent := String

/-- The wrapped module: an `EcmascriptChunkPlaceable` with an identity. -/
structure PlaceableAsset where
  ident : AssetIdent
deriving DecidableEq, Repr

/-- The construction parameters of `ChunkGroupVc::from_asset`. -/
structure ChunkGroupQuery where
  asset : PlaceableAsset
  context : ChunkingContext
  available_assets : Option AvailableAssets
  availability_root : Option PlaceableAsset
deriving DecidableEq, Repr

/-- `ChunkGroupVc::from_asset`: records the construction parameters; the
actual resolution is the external chunk-graph algorithm. -/
def ChunkGroup.from_asset (asset : PlaceableAsset) (context : ChunkingContext)
    (available_assets : Option AvailableAssets)
    (availability_root : Option PlaceableAsset) : ChunkGroupQuery :=
  ⟨asset, context, available_assets, availability_root⟩

/-- An asset reference as declared by `references()`: here always a
`ChunkGroupReferenceVc` around a chunk-group construction. -/
inductive AssetReference where
  | chunkGroupReference (query : ChunkGroupQuery)
deriving DecidableEq, Repr

/-- `WithChunksAsset`: wrapped module, serving root, chunking context. -/
structure WithChunksAsset where
  asset : PlaceableAsset
  server_root : FileSystemPath
  chunking_context : ChunkingContext
deriving DecidableEq, Repr

/-- `WithChunksAsset::ident`: the wrapped module's identity with the
constant modifier. -/
def WithChunksAsset.ident (a : WithChunksAsset) : AssetIdent :=
  a.asset.ident.with_modifier modifier

/-- `WithChunksAsset::content`: `unimplemented!()` — modelled as an
unrecoverable error, never a value. -/
def WithChunksAsset.content (_ : WithChunksAsset) : Except Err AssetContent :=
  .error "unimplemented"

/-- `WithChunksAsset::references`: exactly one chunk-group reference built
from (wrapped module, stored context, no availability set, wrapped module
as availability root). -/
def WithChunksAsset.references (a : WithChunksAsset) : List AssetReference :=
  [AssetReference.chunkGroupReference
    (ChunkGroup.from_asset a.asset a.chunking_context none (some a.asset))]

/-- `WithChunksChunkItem`: the chunk item bound to a context, holding the
virtual asset. -/
structure WithChunksChunkItem where
  context : ChunkingContext
  inner : WithChunksAsset
deriving DecidableEq, Repr

/-- `WithChunksAsset::as_chunk_item`: bind the asset to a context. -/
def WithChunksAsset.as_chunk_item (a : WithChunksAsset)
    (context : ChunkingContext) : WithChunksChunkItem :=
  ⟨context, a⟩

/-- `WithChunksChunkItem::chunking_context`: the bound context. -/
def WithChunksChunkItem.chunking_context (i : WithChunksChunkItem) :
    ChunkingContext :=
  i.context

/-- `ChunkItem::asset_ident` for `WithChunksChunkItem`: delegates to the
inner asset's identity. -/
def WithChunksChunkItem.asset_ident (i : WithChunksChunkItem) : AssetIdent :=
  i.inner.ident

/-- `ChunkItem::references` for `WithChunksChunkItem`: delegates to the
inner asset's references. -/
def WithChunksChunkItem.references (i : WithChunksChunkItem) :
    List AssetReference :=
  i.inner.references

/-- The chunk-group construction performed inside
`WithChunksChunkItem::content` (lines 118–123 of the source). -/
def WithChunksChunkItem.group_query (i : WithChunksChunkItem) :
    ChunkGroupQuery :=
  ChunkGroup.from_asset i.inner.asset i.inner.chunking_context none
    (some i.inner.asset)

/-- Environment of external asynchronous collaborators consumed by
`content`: chunk-group resolution to a chunk list, per-chunk output-path
resolution, and the wrapped module's chunk-item id under a context. -/
structure Env where
  group_chunks : ChunkGroupQuery → Except Err (List Chunk)
  chunk_path : Chunk → Except Err FileSystemPath
  chunk_item_id : PlaceableAsset → ChunkingContext → Except Err ModuleId

/-- Modelled from the spec: JSON escaping of one character, as performed
by the external serde_json string rendering. -/
def escapeJsonChar (c : Char) : String :=
  if c = '"' then "\\\""
  else if c = '\\' then "\\\\"
  else if c = '\n' then "\\n"
  else if c = '\t' then "\\t"
  else if c = '\r' then "\\r"
  else if c.toNat < 32 then
    "\\u00" ++ String.mk [hexDigit (c.toNat / 16), hexDigit (c.toNat % 16)]
  else String.singleton c
where
  hexDigit (n : Nat) : Char :=
    if n < 10 then Char.ofNat (48 + n) else Char.ofNat (87 + n)

/-- Modelled from the spec: a safely quoted/escaped JSON string literal. -/
def jsonQuote (s : String) : String :=
  "\"" ++ String.join (s.toList.map escapeJsonChar) ++ "\""

/-- Modelled from the spec: `stringify_js`, rendering a module id as a
source-safe quoted string literal. -/
def stringify_js (id : ModuleId) : String :=
  jsonQuote id

/-- Modelled from the spec: serde_json's compact rendering of an array of
strings (`Value::Array` of `Value::String`s). -/
def jsonArray (l : List String) : String :=
  "[" ++ String.intercalate "," (l.map jsonQuote) ++ "]"

/-- `TryJoinIterExt::try_join` over per-chunk path resolution: all
resolutions are joined as one unit, failing with the first error in
iteration order and producing no partial list. -/
def tryJoin (f : Chunk → Except Err FileSystemPath) :
    List Chunk → Except Err (List FileSystemPath)
  | [] => .ok []
  | c :: cs => do
    let p ← f c
    let ps ← tryJoin f cs
    pure (p :: ps)

/-- The path-rebasing loop of `content` (lines 126–131): for each chunk
path in group order, keep it rebased relative to the serving root when
rebasing succeeds, silently skip it otherwise. -/
def clientChunks (server_root : FileSystemPath)
    (chunk_paths : List FileSystemPath) : List String :=
  chunk_paths.filterMap (fun p => server_root.get_path_to p)

/-- The generated content descriptor: `inner_code` plus the remaining
fields of `EcmascriptChunkItemContent`, which `content` leaves at their
defaults (`..Default::default()`); the extra fields are modelled from the
spec as "all other content-descriptor fields". -/
structure EcmascriptChunkItemContent where
  inner_code : String
  source_map : Option String := none
  options : Bool := false
deriving DecidableEq, Repr

/-- The `format!` template of lines 140–147 applied to the stringified
module id and the serde_json rendering of the client-chunk list: note the
template ends `...{};\n`, so a newline follows the final semicolon. -/
def generatedCode (module_id : ModuleId) (client_chunks : List String) :
    String :=
  "__turbopack_esm__(\x7b\n  default: () => " ++ stringify_js module_id ++
  ",\n  chunks: () => chunks\n\x7d);\nconst chunks = " ++
  jsonArray client_chunks ++ ";\n"

/-- `WithChunksChunkItem::content`: resolve the chunk group with the same
parameters as `references()`, join all chunk-path resolutions fail-fast,
rebase each against the serving root dropping out-of-root paths, resolve
and stringify the wrapped module's chunk-item id, and emit the generated
text with every other descriptor field defaulted. -/
def WithChunksChunkItem.content (env : Env) (i : WithChunksChunkItem) :
    Except Err EcmascriptChunkItemContent := do
  let inner := i.inner
  let chunks ← env.group_chunks i.group_query
  let server_root := inner.server_root
  let chunk_paths ← tryJoin env.chunk_path chunks
  let client_chunks := clientChunks server_root chunk_paths
  let module_id ← env.chunk_item_id inner.asset inner.chunking_context
  pure { inner_code := generatedCode module_id client_chunks }

/-- Modelled from the spec: the exact generated-text shape of §6 as quoted
by the spec, ending at the semicolon after the chunk array (no trailing
newline). -/
def claimedShape (module_id_literal : String) (json_paths : String) :
    String :=
  "__turbopack_esm__(\x7b\n  default: () => " ++ module_id_literal ++
  ",\n  chunks: () => chunks\n\x7d);\nconst chunks = " ++ json_paths ++ ";"

/-! Concrete fixtures, mirroring the worked example of spec §8: a wrapped
module at `pages/index.js`, serving root `/build`, a chunk group of two
chunks at `/build/static/...`, module id `"1234"`. -/

/-- Identity of the example wrapped module. -/
def ident0 : AssetIdent := ⟨"pages/index.js", []⟩

/-- The example wrapped module. -/
def asset0 : PlaceableAsset := ⟨ident0⟩

/-- The example serving root `/build`. -/
def root0 : FileSystemPath := ⟨["", "build"]⟩

/-- The example virtual asset. -/
def wca0 : WithChunksAsset := ⟨asset0, root0, 0⟩

/-- The example chunk item, bound to a context distinct from the stored
one. -/
def item0 : WithChunksChunkItem := wca0.as_chunk_item 1

/-- Output path of the first example chunk. -/
def pathA : FileSystemPath := ⟨["", "build", "static", "a.js"]⟩

/-- Output path of the second example chunk. -/
def pathB : FileSystemPath := ⟨["", "build", "static", "b.js"]⟩

/-- A path outside the serving root (`/other/x.js`). -/
def pathOut : FileSystemPath := ⟨["", "other", "x.js"]⟩

/-- Environment resolving the example chunk group to two in-root chunks. -/
def env0 : Env where
  group_chunks := fun _ => .ok [7, 8]
  chunk_path := fun c => if c = 7 then .ok pathA else .ok pathB
  chunk_item_id := fun _ _ => .ok "1234"

/-- A second environment that agrees with `env0` on the example queries
but differs elsewhere. -/
def env0b : Env where
  group_chunks := fun q => if q = item0.group_query then .ok [7, 8] else .error "other"
  chunk_path := fun c => if c = 7 then .ok pathA else .ok pathB
  chunk_item_id := fun _ c => if c = 0 then .ok "1234" else .ok "5678"

/-- Environment whose chunk-group resolution fails. -/
def envErrGroup : Env where
  group_chunks := fun _ => .error "boom"
  chunk_path := fun _ => .ok pathA
  chunk_item_id := fun _ _ => .ok "1234"

/-- Environment where one chunk's path resolution fails. -/
def envErrPath : Env where
  group_chunks := fun _ => .ok [7, 8]
  chunk_path := fun c => if c = 7 then .ok pathA else .error "pathfail"
  chunk_item_id := fun _ _ => .ok "1234"

/-- Environment whose only chunk lies outside the serving root. -/
def envOut : Env where
  group_chunks := fun _ => .ok [9]
  chunk_path := fun _ => .ok pathOut
  chunk_item_id := fun _ _ => .ok "1234"

/-! Helper lemmas about `content`, `tryJoin` and `clientChunks`. -/

theorem content_group_error (env : Env) (i : WithChunksChunkItem) (e : Err)
    (h : env.group_chunks i.group_query = .error e) :
    i.content env = .error e := by
  simp [WithChunksChunkItem.content, Bind.bind, Except.bind, h]

theorem content_paths_error (env : Env) (i : WithChunksChunkItem)
    (cs : List Chunk) (e : Err)
    (h1 : env.group_chunks i.group_query = .ok cs)
    (h2 : tryJoin env.chunk_path cs = .error e) :
    i.content env = .error e := by
  simp [WithChunksChunkItem.content, Bind.bind, Except.bind, h1, h2]

theorem content_id_error (env : Env) (i : WithChunksChunkItem)
    (cs : List Chunk) (ps : List FileSystemPath) (e : Err)
    (h1 : env.group_chunks i.group_query = .ok cs)
    (h2 : tryJoin env.chunk_path cs = .ok ps)
    (h3 : env.chunk_item_id i.inner.asset i.inner.chunking_context = .error e) :
    i.content env = .error e := by
  simp [WithChunksChunkItem.content, Bind.bind, Except.bind, h1, h2, h3]

theorem content_ok (env : Env) (i : WithChunksChunkItem) (cs : List Chunk)
    (ps : List FileSystemPath) (mid : ModuleId)
    (h1 : env.group_chunks i.group_query = .ok cs)
    (h2 : tryJoin env.chunk_path cs = .ok ps)
    (h3 : env.chunk_item_id i.inner.asset i.inner.chunking_context = .ok mid) :
    i.content env =
      .ok { inner_code := generatedCode mid (clientChunks i.inner.server_root ps) } := by
  simp [WithChunksChunkItem.content, Bind.bind, Except.bind, h1, h2, h3,
    Pure.pure, Except.pure]

theorem content_ok_inv (env : Env) (i : WithChunksChunkItem)
    (c : EcmascriptChunkItemContent) (h : i.content env = .ok c) :
    ∃ cs ps mid,
      env.group_chunks i.group_query = .ok cs ∧
      tryJoin env.chunk_path cs = .ok ps ∧
      env.chunk_item_id i.inner.asset i.inner.chunking_context = .ok mid ∧
      c = { inner_code := generatedCode mid (clientChunks i.inner.server_root ps) } := by
  cases h1 : env.group_chunks i.group_query with
  | error e => rw [content_group_error env i e h1] at h; exact absurd h (by simp)
  | ok cs =>
    cases h2 : tryJoin env.chunk_path cs with
    | error e =>
      rw [content_paths_error env i cs e h1 h2] at h; exact absurd h (by simp)
    | ok ps =>
      cases h3 : env.chunk_item_id i.inner.asset i.inner.chunking_context with
      | error e =>
        rw [content_id_error env i cs ps e h1 h2 h3] at h
        exact absurd h (by simp)
      | ok mid =>
        rw [content_ok env i cs ps mid h1 h2 h3] at h
        exact ⟨cs, ps, mid, rfl, h2, rfl, (Except.ok.inj h).symm⟩

theorem tryJoin_error_of_mem (f : Chunk → Except Err FileSystemPath)
    (cs : List Chunk) (c : Chunk) (e : Err) (hmem : c ∈ cs)
    (herr : f c = .error e) :
    ∃ e2, (∃ c2 ∈ cs, f c2 = .error e2) ∧ tryJoin f cs = .error e2 := by
  induction cs with
  | nil => cases hmem
  | cons x xs ih =>
    cases hx : f x with
    | error e3 =>
      exact ⟨e3, ⟨x, List.mem_cons_self x xs, hx⟩,
        by simp [tryJoin, Bind.bind, Except.bind, hx]⟩
    | ok p =>
      rcases List.mem_cons.mp hmem with rfl | hmem2
      · rw [hx] at herr; cases herr
      · rcases ih hmem2 with ⟨e2, ⟨c2, hc2, herr2⟩, hjoin⟩
        exact ⟨e2, ⟨c2, List.mem_cons_of_mem x hc2, herr2⟩,
          by simp [tryJoin, Bind.bind, Except.bind, hx, hjoin]⟩

theorem clientChunks_eq_filter_map (root : FileSystemPath)
    (ps : List FileSystemPath) :
    clientChunks root ps =
      (ps.filter (fun p => (root.get_path_to p).isSome)).map
        (fun p => (root.get_path_to p).getD "") := by
  induction ps with
  | nil => rfl
  | cons p ps ih =>
    cases h : root.get_path_to p with
    | none => simpa [clientChunks, List.filterMap_cons, List.filter_cons, h] using ih
    | some s => simpa [clientChunks, List.filterMap_cons, List.filter_cons, h] using ih

theorem length_clientChunks_eq_iff (root : FileSystemPath)
    (ps : List FileSystemPath) :
    (clientChunks root ps).length = ps.length ↔
      ∀ p ∈ ps, (root.get_path_to p).isSome := by
  induction ps with
  | nil => simp [clientChunks]
  | cons p ps ih =>
    simp only [clientChunks] at ih ⊢
    cases h : root.get_path_to p with
    | none =>
      have hle := List.length_filterMap_le (fun p => root.get_path_to p) ps
      simp only [List.filterMap_cons, h, List.length_cons, List.mem_cons]
      constructor
      · intro hlen; exact absurd hlen (by omega)
      · intro hall
        have hp := hall p (Or.inl rfl)
        rw [h] at hp; exact absurd hp (by simp)
    | some s =>
      simp only [List.filterMap_cons, h, List.length_cons, List.mem_cons]
      constructor
      · intro hlen q hq
        rcases hq with rfl | hq
        · rw [h]; rfl
        · exact ih.mp (Nat.succ_injective hlen) q hq
      · intro hall
        have hlen := ih.mpr (fun q hq => hall q (Or.inr hq))
        omega

theorem generatedCode_eq (mid : ModuleId) (l : List String) :
    generatedCode mid l =
      claimedShape (stringify_js mid) (jsonArray l) ++ "\n" := by
  simp [generatedCode, claimedShape, String.append_assoc]

/-! Theorems settling the claims. -/

/-- C1 (counterexample): at the example inputs, the generated text is the
spec-quoted shape followed by a trailing newline, which differs from the
shape itself — so the claim's "no other text before or after this shape"
fails. -/
theorem c1_trailing_newline_counterexample :
    (WithChunksChunkItem.content env0 item0).map (fun c => c.inner_code) =
      .ok (claimedShape (stringify_js "1234")
        (jsonArray ["static/a.js", "static/b.js"]) ++ "\n") ∧
    claimedShape (stringify_js "1234")
        (jsonArray ["static/a.js", "static/b.js"]) ++ "\n" ≠
      claimedShape (stringify_js "1234")
        (jsonArray ["static/a.js", "static/b.js"]) :=
  ⟨rfl, by decide⟩

/-- C1 (amended): whenever all collaborator resolutions succeed, `content`
returns exactly the claimed shape — module-id literal and JSON array of
relative chunk paths embedded, `__turbopack_esm__` verbatim — followed by
a single trailing newline, and nothing else. -/
theorem c1_content_exact_shape (env : Env) (i : WithChunksChunkItem)
    (cs : List Chunk) (ps : List FileSystemPath) (mid : ModuleId)
    (h1 : env.group_chunks i.group_query = .ok cs)
    (h2 : tryJoin env.chunk_path cs = .ok ps)
    (h3 : env.chunk_item_id i.inner.asset i.inner.chunking_context = .ok mid) :
    i.content env =
      .ok { inner_code := claimedShape (stringify_js mid) (jsonArray (clientChunks i.inner.server_root ps)) ++ "\n" } := by
  rw [content_ok env i cs ps mid h1 h2 h3, generatedCode_eq]

/-- C1 (witness): the amended shape theorem at the spec §8 example. -/
theorem c1_content_exact_shape_witness :
    WithChunksChunkItem.content env0 item0 =
      .ok { inner_code := claimedShape (stringify_js "1234") (jsonArray (clientChunks root0 [pathA, pathB])) ++ "\n" } :=
  c1_content_exact_shape env0 item0 [7, 8] [pathA, pathB] "1234" rfl rfl rfl

/-- C2: on success the generated content embeds exactly the chunk paths
that descend from the serving root, each rebased, in chunk-group order;
the list's length is at most the group's, with equality iff every chunk
path descends from the serving root. -/
theorem c2_client_chunk_list (env : Env) (i : WithChunksChunkItem)
    (cs : List Chunk) (ps : List FileSystemPath) (mid : ModuleId)
    (h1 : env.group_chunks i.group_query = .ok cs)
    (h2 : tryJoin env.chunk_path cs = .ok ps)
    (h3 : env.chunk_item_id i.inner.asset i.inner.chunking_context = .ok mid) :
    i.content env =
      .ok { inner_code := generatedCode mid (clientChunks i.inner.server_root ps) } ∧
    clientChunks i.inner.server_root ps =
      (ps.filter (fun p => (i.inner.server_root.get_path_to p).isSome)).map
        (fun p => (i.inner.server_root.get_path_to p).getD "") ∧
    (clientChunks i.inner.server_root ps).length ≤ ps.length ∧
    ((clientChunks i.inner.server_root ps).length = ps.length ↔
      ∀ p ∈ ps, (i.inner.server_root.get_path_to p).isSome) :=
  ⟨content_ok env i cs ps mid h1 h2 h3,
   clientChunks_eq_filter_map i.inner.server_root ps,
   List.length_filterMap_le _ ps,
   length_clientChunks_eq_iff i.inner.server_root ps⟩

/-- C2 (witness): the chunk-list theorem at the spec §8 example. -/
theorem c2_client_chunk_list_witness :
    WithChunksChunkItem.content env0 item0 =
      .ok { inner_code := generatedCode "1234" (clientChunks root0 [pathA, pathB]) } ∧
    clientChunks root0 [pathA, pathB] =
      (([pathA, pathB].filter (fun p => (root0.get_path_to p).isSome)).map
        (fun p => (root0.get_path_to p).getD "")) ∧
    (clientChunks root0 [pathA, pathB]).length ≤ 2 ∧
    ((clientChunks root0 [pathA, pathB]).length = 2 ↔
      ∀ p ∈ [pathA, pathB], (root0.get_path_to p).isSome) :=
  c2_client_chunk_list env0 item0 [7, 8] [pathA, pathB] "1234" rfl rfl rfl

/-- C3: `content()` on the Virtual Asset itself always fails with the
unrecoverable contract-violation error and never returns a value. -/
theorem c3_asset_content_always_fails (a : WithChunksAsset)
    (v : AssetContent) :
    a.content = .error "unimplemented" ∧ a.content ≠ .ok v :=
  ⟨rfl, by simp [WithChunksAsset.content]⟩

/-- C4: chunk-path resolutions are joined as one unit — if chunk-group
resolution fails, `content` fails with that same error; if any chunk's
path resolution fails, `content` fails with a failing chunk's error and
produces no partial text. -/
theorem c4_fail_fast_join (env : Env) (i : WithChunksChunkItem) (e : Err) :
    (env.group_chunks i.group_query = .error e → i.content env = .error e) ∧
    (∀ cs, env.group_chunks i.group_query = .ok cs →
      (∃ c ∈ cs, env.chunk_path c = .error e) →
      ∃ e2, (∃ c2 ∈ cs, env.chunk_path c2 = .error e2) ∧
        i.content env = .error e2) := by
  refine ⟨content_group_error env i e, ?_⟩
  rintro cs h1 ⟨c, hmem, herr⟩
  rcases tryJoin_error_of_mem env.chunk_path cs c e hmem herr with ⟨e2, hex, hjoin⟩
  exact ⟨e2, hex, content_paths_error env i cs e2 h1 hjoin⟩

/-- C4 (witness): a failing chunk-group resolution and a failing chunk
path each abort the example synthesis with the collaborator's error. -/
theorem c4_fail_fast_join_witness :
    WithChunksChunkItem.content envErrGroup item0 = .error "boom" ∧
    ∃ e2, (∃ c2 ∈ [7, 8], envErrPath.chunk_path c2 = .error e2) ∧
      WithChunksChunkItem.content envErrPath item0 = .error e2 :=
  ⟨(c4_fail_fast_join envErrGroup item0 "boom").1 rfl,
   (c4_fail_fast_join envErrPath item0 "pathfail").2 [7, 8] rfl
     ⟨8, by decide, rfl⟩⟩

/-- C5: the Virtual Asset's identity is the wrapped module's identity
combined with the constant modifier "chunks" — a deterministic function of
the wrapped identity — and is distinct from the wrapped identity. -/
theorem c5_ident_modifier (a : WithChunksAsset) :
    a.ident = a.asset.ident.with_modifier modifier ∧
    modifier = "chunks" ∧
    a.ident ≠ a.asset.ident := by
  refine ⟨rfl, rfl, fun h => ?_⟩
  have hlen := congrArg (fun i => i.modifiers.length) h
  simp [WithChunksAsset.ident, AssetIdent.with_modifier] at hlen

/-- C6: `references()` declares exactly one chunk-group reference, built
from (wrapped module, stored context, no availability set, wrapped module
as availability root), and the chunk item's content synthesis resolves the
chunk group with those same construction parameters. -/
theorem c6_references_single_group (a : WithChunksAsset)
    (context : ChunkingContext) :
    a.references =
      [AssetReference.chunkGroupReference
        (ChunkGroup.from_asset a.asset a.chunking_context none (some a.asset))] ∧
    a.references.length = 1 ∧
    (a.as_chunk_item context).group_query =
      ChunkGroup.from_asset a.asset a.chunking_context none (some a.asset) :=
  ⟨rfl, rfl, rfl⟩

/-- C7: the derived chunk item's `references()` and `asset_ident()`
delegate structurally to the Virtual Asset's `references()` and
identity. -/
theorem c7_chunk_item_delegates (a : WithChunksAsset)
    (context : ChunkingContext) :
    (a.as_chunk_item context).references = a.references ∧
    (a.as_chunk_item context).asset_ident = a.ident :=
  ⟨rfl, rfl⟩

/-- C8: content synthesis is deterministic in its inputs — two
environments agreeing on the chunk group, the chunk paths and the module
id yield byte-identical generated content. -/
theorem c8_content_deterministic (env1 env2 : Env) (i : WithChunksChunkItem)
    (h1 : env1.group_chunks i.group_query = env2.group_chunks i.group_query)
    (h2 : ∀ c, env1.chunk_path c = env2.chunk_path c)
    (h3 : env1.chunk_item_id i.inner.asset i.inner.chunking_context =
      env2.chunk_item_id i.inner.asset i.inner.chunking_context) :
    i.content env1 = i.content env2 := by
  have hfun : env1.chunk_path = env2.chunk_path := funext h2
  simp only [WithChunksChunkItem.content, h1, hfun, h3]

/-- C8 (witness): two environments agreeing on the example queries produce
identical content. -/
theorem c8_content_deterministic_witness :
    WithChunksChunkItem.content env0 item0 =
      WithChunksChunkItem.content env0b item0 :=
  c8_content_deterministic env0 env0b item0 rfl (fun _ => rfl) rfl

/-- C9: `content` ignores the context the chunk item was bound to and uses
the Virtual Asset's stored context (its `group_query` is built from the
stored context), so two chunk items over the same Virtual Asset under
different bound contexts have identical content; only `chunking_context`
returns the bound context. -/
theorem c9_bound_context_ignored (env : Env) (a : WithChunksAsset)
    (c1 c2 : ChunkingContext) :
    (a.as_chunk_item c1).content env = (a.as_chunk_item c2).content env ∧
    (a.as_chunk_item c1).chunking_context = c1 ∧
    (a.as_chunk_item c1).group_query =
      ChunkGroup.from_asset a.asset a.chunking_context none (some a.asset) :=
  ⟨rfl, rfl, rfl⟩

/-- C10: when every resolved chunk path (possibly none at all) lies
outside the serving root, `content` still succeeds and emits the full
shape with an empty JSON array; and every successful synthesis leaves all
other content-descriptor fields at their defaults. -/
theorem c10_empty_chunk_list_still_succeeds :
    (∀ (env : Env) (i : WithChunksChunkItem) (cs : List Chunk)
        (ps : List FileSystemPath) (mid : ModuleId),
      env.group_chunks i.group_query = .ok cs →
      tryJoin env.chunk_path cs = .ok ps →
      env.chunk_item_id i.inner.asset i.inner.chunking_context = .ok mid →
      (∀ p ∈ ps, i.inner.server_root.get_path_to p = none) →
      i.content env =
        .ok { inner_code := claimedShape (stringify_js mid) "[]" ++ "\n" }) ∧
    (∀ (env : Env) (i : WithChunksChunkItem) (c : EcmascriptChunkItemContent),
      i.content env = .ok c → c.source_map = none ∧ c.options = false) := by
  constructor
  · intro env i cs ps mid h1 h2 h3 hout
    have hnil : clientChunks i.inner.server_root ps = [] :=
      List.filterMap_eq_nil_iff.mpr hout
    rw [content_ok env i cs ps mid h1 h2 h3, hnil, generatedCode_eq]
    exact rfl
  · intro env i c h
    rcases content_ok_inv env i c h with ⟨cs, ps, mid, -, -, -, rfl⟩
    exact ⟨rfl, rfl⟩

/-- C10 (witness): the out-of-root example still synthesizes successfully
with `const chunks = [];`, and a successful synthesis has defaulted
descriptor fields. -/
theorem c10_empty_chunk_list_still_succeeds_witness :
    WithChunksChunkItem.content envOut item0 =
      .ok { inner_code := claimedShape (stringify_js "1234") "[]" ++ "\n" } ∧
    (⟨generatedCode "1234" (clientChunks root0 [pathA, pathB]), none,
        false⟩ : EcmascriptChunkItemContent).source_map = none ∧
    (⟨generatedCode "1234" (clientChunks root0 [pathA, pathB]), none,
        false⟩ : EcmascriptChunkItemContent).options = false := by
  refine ⟨c10_empty_chunk_list_still_succeeds.1 envOut item0 [9] [pathOut]
    "1234" rfl rfl rfl (by decide), ?_, ?_⟩
  · exact (c10_empty_chunk_list_still_succeeds.2 env0 item0 _ rfl).1
  · exact (c10_empty_chunk_list_still_succeeds.2 env0 item0 _ rfl).2

end WithChunks
